import Mathlib

/-!
Shallow embedding of the `load_config` crate (src/lib.rs, src/error.rs):
a layered configuration loader over figment. Pure data and control flow of
`load_config` and `create_default_file` are translated from the source;
the external figment providers and codecs are modelled through an abstract
`ConfigType` interface and a `World` of filesystem/environment state,
following the spec where the external behaviour is not in the sources.
All feature flags (`config_file`, `json_file`, `toml_file`, `yaml_file`)
are taken as enabled.
-/

namespace LoadConfig

/-- Generic key-value document model of figment: field name to value,
as an association list where the first binding of a key wins. -/
abbrev Dict := List (String × String)

/-- The figment error kinds distinguished by `load_config` (src/lib.rs:114
matches on `figment::error::Kind::MissingField`); all other kinds are
collapsed into representative non-missing-field variants. -/
inductive FigmentKind where
  | MissingField (name : String)
  | Io (msg : String)
  | Parse (msg : String)
  | InvalidType (msg : String)
deriving DecidableEq, Repr

/-- A figment error; `load_config` inspects only its `kind` field. -/
structure FigmentError where
  kind : FigmentKind
deriving DecidableEq, Repr

/-- Supported config file source formats, contain filepath (src/lib.rs:212). -/
inductive SourceFile where
  | Json (filepath : String)
  | Toml (filepath : String)
  | Yaml (filepath : String)
deriving DecidableEq, Repr

/-- Config source: environment variables, a file or config default (src/lib.rs:200). -/
inductive Source where
  | ConfigDefault
  | Env
  | File (sf : SourceFile)
deriving DecidableEq, Repr

/-- Errors of `create_default_file` (src/error.rs:19): serialisation
failures per codec and filesystem failures tagged with the filepath. -/
inductive CreateDefaultFileError where
  | SerdeJson (e : String)
  | SerdeYaml (e : String)
  | StdIo (filepath : String) (source : String)
  | TomlSer (e : String)
deriving DecidableEq, Repr

/-- Top-level error type of `load_config` (src/error.rs:5). -/
inductive Error where
  | CreateDefaultFile (e : CreateDefaultFileError)
  | CreatedDefaultFile (filepath : String)
  | Figment (e : FigmentError)
deriving DecidableEq, Repr

/-- Filesystem side-effect operations of `create_default_file` that may
fail for external reasons (permissions, disk, ...). -/
inductive IoOp where
  | createDirAll (path : String)
  | createNew (path : String)
  | writeAll (path : String)
deriving DecidableEq, Repr

/-- The ambient state a `load_config` call observes and mutates: file
contents by path, the process environment, and an oracle injecting
external I/O failures (a `some msg` makes the corresponding operation
fail with that message, as a real filesystem may). -/
structure World where
  fs : List (String × String)
  env : List (String × String)
  ioFault : IoOp → Option String

/-- Whether a file exists at `p` (`std::path::Path::exists`, src/lib.rs:127). -/
def pathExists (w : World) (p : String) : Bool :=
  (w.fs.lookup p).isSome

/-- Filepath extraction from a `SourceFile`, as the matches at
src/lib.rs:118-126 and src/lib.rs:158-166 perform it. -/
def sourceFilePath : SourceFile → String
  | .Json filepath => filepath
  | .Toml filepath => filepath
  | .Yaml filepath => filepath

/-- Parent of a path string (`Path::parent().unwrap_or("")`, src/lib.rs:179). -/
def parentDir (p : String) : String :=
  let parts := p.splitOn "/"
  if parts.length ≤ 1 then "" else String.intercalate "/" parts.dropLast

/-- The interface a caller's config type `T` provides, abstracting the
external serde/figment machinery: a default value, serialisation into the
document model (`figment::providers::Serialized::defaults`), extraction
from a merged document (`Figment::extract`), and per-format text codecs
(serde_json / toml / serde_yaml used at src/lib.rs:169-177, and the file
decoders used by the figment file providers at src/lib.rs:98-102). -/
structure ConfigType (T : Type) where
  default : T
  toDict : T → Dict
  extract : Dict → Except FigmentError T
  encodeJson : T → Except String String
  encodeToml : T → Except String String
  encodeYaml : T → Except String String
  decodeJson : String → Except FigmentError Dict
  decodeToml : String → Except FigmentError Dict
  decodeYaml : String → Except FigmentError Dict

/-- Modelled from the spec: the figment data fragment contributed by one
source (the providers at src/lib.rs:92-102 are external figment code).
For `ConfigDefault` it is the full field set of `T::default()`; for `Env`
it is the raw process environment, keys unchanged (`Env::raw().lowercase(false)`,
no case transformation); for `File`, the file at the path is decoded with
the codec matching its tag, and a missing or malformed file is an error
fragment, not an absent one (spec 4.1 and 9: the reference behaviour
raises a read error during merge). -/
def fragment (CT : ConfigType T) (w : World) : Source → Except FigmentError Dict
  | .ConfigDefault => .ok (CT.toDict CT.default)
  | .Env => .ok w.env
  | .File sf =>
    match w.fs.lookup (sourceFilePath sf) with
    | none => .error ⟨.Io (sourceFilePath sf)⟩
    | some content =>
      match sf with
      | .Json _ => CT.decodeJson content
      | .Toml _ => CT.decodeToml content
      | .Yaml _ => CT.decodeYaml content

/-- Modelled from the spec: `Figment::join` layers a new provider beneath
all previously inserted ones, so earlier sources' field values take
precedence for the same field name; an error fragment propagates. -/
def joinSource (CT : ConfigType T) (w : World) (acc : Except FigmentError Dict)
    (s : Source) : Except FigmentError Dict :=
  match acc with
  | .error e => .error e
  | .ok d =>
    match fragment CT w s with
    | .error e => .error e
    | .ok frag => .ok (d ++ frag)

/-- The merge loop of `load_config` (src/lib.rs:88-105): fold the sources
in order into one layered view, starting from the empty figment. -/
def mergeSources (CT : ConfigType T) (w : World) (sources : List Source) :
    Except FigmentError Dict :=
  sources.foldl (joinSource CT w) (.ok [])

/-- `Figment::extract` (src/lib.rs:107): a provider error surfaces as the
figment error, otherwise the merged document is deserialised into `T`. -/
def extractFig (CT : ConfigType T) (fig : Except FigmentError Dict) :
    Except FigmentError T :=
  match fig with
  | .error e => .error e
  | .ok d => CT.extract d

/-- Serialisation of `T::default()` with the codec matching the fallback's
tag (src/lib.rs:169-177), with the `?` conversions into
`CreateDefaultFileError` (src/error.rs:23,27,34). -/
def serializeDefault (CT : ConfigType T) :
    SourceFile → Except CreateDefaultFileError String
  | .Json _ => (CT.encodeJson CT.default).mapError CreateDefaultFileError.SerdeJson
  | .Toml _ => (CT.encodeToml CT.default).mapError CreateDefaultFileError.TomlSer
  | .Yaml _ => (CT.encodeYaml CT.default).mapError CreateDefaultFileError.SerdeYaml

/-- `create_default_file` (src/lib.rs:149-194): serialise the default
config, create the parent directories, create the file with
`File::create_new` (fails if it already exists), write the content; each
failure short-circuits and filesystem failures are tagged with the
filepath. Returns the result together with the updated world (a failed
`write_all` leaves the freshly created file behind, possibly partial,
modelled as empty). -/
def create_default_file (CT : ConfigType T) (w : World) (config_file_default : SourceFile) :
    Except CreateDefaultFileError Unit × World :=
  let filepath := sourceFilePath config_file_default
  match serializeDefault CT config_file_default with
  | .error e => (.error e, w)
  | .ok file_content =>
    match w.ioFault (.createDirAll (parentDir filepath)) with
    | some e => (.error (.StdIo filepath e), w)
    | none =>
      if pathExists w filepath then
        (.error (.StdIo filepath "AlreadyExists"), w)
      else
        match w.ioFault (.createNew filepath) with
        | some e => (.error (.StdIo filepath e), w)
        | none =>
          match w.ioFault (.writeAll filepath) with
          | some e => (.error (.StdIo filepath e),
                       { w with fs := (filepath, "") :: w.fs })
          | none => (.ok (), { w with fs := (filepath, file_content) :: w.fs })

/-- `load_config` (src/lib.rs:80-139): merge the sources, extract `T`;
on success return the config. On an extraction failure of kind
`MissingField`, if a default config file is specified and no file exists
at its path yet, create the default file there and report
`CreatedDefaultFile` (a bootstrapper failure propagates instead, via `?`);
in every other case forward the figment error unchanged. -/
def load_config (CT : ConfigType T) (w : World) (sources : List Source)
    (config_file_default : Option SourceFile) : Except Error T × World :=
  match extractFig CT (mergeSources CT w sources) with
  | .ok c => (.ok c, w)
  | .error e =>
    match e.kind with
    | .MissingField _ =>
      match config_file_default with
      | some s =>
        if ! pathExists w (sourceFilePath s) then
          match create_default_file CT w s with
          | (.error ce, w1) => (.error (.CreateDefaultFile ce), w1)
          | (.ok _, w1) => (.error (.CreatedDefaultFile (sourceFilePath s)), w1)
        else (.error (.Figment e), w)
      | none => (.error (.Figment e), w)
    | _ => (.error (.Figment e), w)

/-- The sequence of fragments of a source list, combined left to right:
an error in any fragment propagates (the first one in list order),
otherwise the fragments are concatenated in list order, so lookups prefer
earlier sources. Reference form of `mergeSources` for reasoning. -/
def fragmentsAll (CT : ConfigType T) (w : World) : List Source → Except FigmentError Dict
  | [] => .ok []
  | s :: ss =>
    match fragment CT w s with
    | .error e => .error e
    | .ok d =>
      match fragmentsAll CT w ss with
      | .error e => .error e
      | .ok rest => .ok (d ++ rest)

theorem foldl_joinSource_error (CT : ConfigType T) (w : World) (e : FigmentError) :
    ∀ ss : List Source, ss.foldl (joinSource CT w) (.error e) = .error e := by
  intro ss
  induction ss with
  | nil => rfl
  | cons s ss ih => simpa [joinSource] using ih

theorem foldl_joinSource_eq (CT : ConfigType T) (w : World) :
    ∀ (ss : List Source) (d : Dict),
      ss.foldl (joinSource CT w) (.ok d) =
        match fragmentsAll CT w ss with
        | .error e => .error e
        | .ok rest => .ok (d ++ rest) := by
  intro ss
  induction ss with
  | nil => intro d; simp [fragmentsAll]
  | cons s ss ih =>
    intro d
    simp only [List.foldl_cons, joinSource, fragmentsAll]
    cases hf : fragment CT w s with
    | error e => simp [foldl_joinSource_error]
    | ok frag =>
      rw [ih (d ++ frag)]
      cases fragmentsAll CT w ss with
      | error e => rfl
      | ok rest => simp [List.append_assoc]

theorem mergeSources_eq_fragmentsAll (CT : ConfigType T) (w : World) (ss : List Source) :
    mergeSources CT w ss = fragmentsAll CT w ss := by
  unfold mergeSources
  rw [foldl_joinSource_eq]
  cases fragmentsAll CT w ss <;> simp

theorem lookup_append (l₁ l₂ : Dict) (k : String) :
    (l₁ ++ l₂).lookup k = ((l₁.lookup k).orElse fun _ => l₂.lookup k) := by
  induction l₁ with
  | nil => simp [List.lookup]
  | cons a t ih =>
    obtain ⟨a₁, a₂⟩ := a
    cases h : (k == a₁) with
    | true => simp [List.lookup, h, Option.orElse]
    | false => simpa [List.lookup, h] using ih

theorem fragmentsAll_append (CT : ConfigType T) (w : World) (l₁ l₂ : List Source) :
    fragmentsAll CT w (l₁ ++ l₂) =
      match fragmentsAll CT w l₁ with
      | .error e => .error e
      | .ok d₁ =>
        match fragmentsAll CT w l₂ with
        | .error e => .error e
        | .ok d₂ => .ok (d₁ ++ d₂) := by
  induction l₁ with
  | nil =>
    simp only [List.nil_append, fragmentsAll]
    cases fragmentsAll CT w l₂ <;> simp
  | cons s t ih =>
    simp only [List.cons_append, fragmentsAll]
    cases fragment CT w s with
    | error e => rfl
    | ok d =>
      dsimp only
      rw [show t.append l₂ = t ++ l₂ from rfl, ih]
      cases fragmentsAll CT w t with
      | error e => rfl
      | ok d₁ =>
        cases fragmentsAll CT w l₂ with
        | error e => rfl
        | ok d₂ => simp [List.append_assoc]

theorem fragmentsAll_lookup_none (CT : ConfigType T) (w : World) (f : String) :
    ∀ (ss : List Source) (d : Dict), fragmentsAll CT w ss = .ok d →
      (∀ s ∈ ss, ∀ ds, fragment CT w s = .ok ds → ds.lookup f = none) →
      d.lookup f = none := by
  intro ss
  induction ss with
  | nil =>
    intro d hd _
    simp only [fragmentsAll] at hd
    cases hd
    rfl
  | cons s t ih =>
    intro d hd hnone
    simp only [fragmentsAll] at hd
    cases hf : fragment CT w s with
    | error e => rw [hf] at hd; cases hd
    | ok ds =>
      rw [hf] at hd
      cases ht : fragmentsAll CT w t with
      | error e => rw [ht] at hd; cases hd
      | ok rest =>
        rw [ht] at hd
        cases hd
        rw [lookup_append]
        rw [hnone s (by simp) ds hf]
        simpa using ih rest ht fun s hs ds hds => hnone s (by simp [hs]) ds hds

/-- A concrete decoder for the toy config type below: recognises the two
serialisations of its single boolean field `setting1`. -/
def toyDecode (content : String) : Except FigmentError Dict :=
  if content = "setting1 = true" then .ok [("setting1", "true")]
  else if content = "setting1 = false" then .ok [("setting1", "false")]
  else .error ⟨.Parse content⟩

/-- A concrete instance of the `ConfigType` interface: a config with one
boolean field `setting1`, defaulting to `false`, used to evaluate the
verified theorems on closed inputs. -/
def toyCT : ConfigType Bool where
  default := false
  toDict := fun b => [("setting1", if b then "true" else "false")]
  extract := fun d =>
    match d.lookup "setting1" with
    | some "true" => .ok true
    | some "false" => .ok false
    | some v => .error ⟨.InvalidType v⟩
    | none => .error ⟨.MissingField "setting1"⟩
  encodeJson := fun b => .ok (if b then "setting1 = true" else "setting1 = false")
  encodeToml := fun b => .ok (if b then "setting1 = true" else "setting1 = false")
  encodeYaml := fun b => .ok (if b then "setting1 = true" else "setting1 = false")
  decodeJson := toyDecode
  decodeToml := toyDecode
  decodeYaml := toyDecode

/-- The filepath a `CreateDefaultFileError` is tagged with, mirroring
src/error.rs:19-35: only the `StdIo` variant has a `filepath` field (and
only its display string mentions a path); the serialisation variants
`SerdeJson`, `SerdeYaml` and `TomlSer` carry just the underlying codec
error. -/
def cdfeFilepath : CreateDefaultFileError → Option String
  | .StdIo filepath _ => some filepath
  | .SerdeJson _ => none
  | .SerdeYaml _ => none
  | .TomlSer _ => none

/-- A variant of the toy config type below whose codecs fail to
serialise, exhibiting the error shape of a failing serialisation step. -/
def toyBadSerCT : ConfigType Bool :=
  { toyCT with
    encodeJson := fun _ => .error "boom"
    encodeToml := fun _ => .error "boom"
    encodeYaml := fun _ => .error "boom" }

/-- An empty world: no files, no environment variables, no I/O faults. -/
def wEmpty : World where
  fs := []
  env := []
  ioFault := fun _ => none

/-- A world where creating directories fails (e.g. missing permissions). -/
def wDirFault : World where
  fs := []
  env := []
  ioFault := fun op => match op with
    | .createDirAll _ => some "denied"
    | _ => none

/-- A world holding a config file and an environment variable that both
define `setting1`, with different values. -/
def wBoth : World where
  fs := [("./c.toml", "setting1 = false")]
  env := [("setting1", "true")]
  ioFault := fun _ => none

/-- A world where a (malformed) file already exists at the fallback path. -/
def wJunk : World where
  fs := [("./cfg.toml", "junk")]
  env := []
  ioFault := fun _ => none

/-- C7: with `sources = [ConfigDefault]` and a default instance that fully
populates all fields (extraction of the serialised default succeeds and
returns the default), `load_config` returns the loaded default value, the
world is untouched, and the fallback has no effect on the result. -/
theorem C7_defaults_only (CT : ConfigType T) (w : World) (fb : Option SourceFile)
    (h : CT.extract (CT.toDict CT.default) = .ok CT.default) :
    load_config CT w [Source.ConfigDefault] fb = (.ok CT.default, w) := by
  simp [load_config, mergeSources, joinSource, fragment, extractFig, h]

theorem C7_defaults_only_witness :
    load_config toyCT wEmpty [Source.ConfigDefault] (some (SourceFile.Toml "./cfg.toml")) =
      (.ok false, wEmpty) :=
  C7_defaults_only toyCT wEmpty (some (SourceFile.Toml "./cfg.toml")) rfl

/-- C9: the environment fragment joined by `load_config` for an `Env`
source is the raw process environment mapping, keys unchanged (no
lowercasing or other case transformation), so the merged view looks a key
up exactly as it appears in the environment. -/
theorem C9_env_raw (CT : ConfigType T) (w : World) (k : String) :
    fragment CT w Source.Env = .ok w.env ∧
    (mergeSources CT w [Source.Env]).map (fun d => d.lookup k) = .ok (w.env.lookup k) := by
  refine ⟨rfl, ?_⟩
  simp [mergeSources, joinSource, fragment, Except.map]

/-- C6: with a single absent-file source and the same path as fallback,
the file provider contributes an error fragment with a read error (kind
`Io`, not `MissingField`), so `load_config` forwards that figment failure
and creates no file (the world is returned unchanged). -/
theorem C6_absent_file_source (CT : ConfigType T) (w : World)
    (h : w.fs.lookup "./missing.toml" = none) :
    load_config CT w [Source.File (SourceFile.Toml "./missing.toml")]
        (some (SourceFile.Toml "./missing.toml")) =
      (.error (.Figment ⟨.Io "./missing.toml"⟩), w) := by
  simp [load_config, mergeSources, joinSource, fragment, extractFig, sourceFilePath, h]

theorem C6_absent_file_source_witness :
    load_config toyCT wEmpty [Source.File (SourceFile.Toml "./missing.toml")]
        (some (SourceFile.Toml "./missing.toml")) =
      (.error (.Figment ⟨.Io "./missing.toml"⟩), wEmpty) :=
  C6_absent_file_source toyCT wEmpty rfl

/-- C1: when extraction fails with kind `MissingField`, the fallback is
set and no file exists at its path, `load_config` runs the bootstrapper
and, on its success, returns `CreatedDefaultFile` carrying the fallback's
path; when the fallback is unset, or the failure has any other kind, it
returns the original figment failure unchanged, attempting no recovery and
writing nothing (the world is returned unchanged). -/
theorem C1_missing_field_recovery (CT : ConfigType T) (w : World) (sources : List Source)
    (e : FigmentError) (name : String)
    (hext : extractFig CT (mergeSources CT w sources) = .error e) :
    (∀ s w1, e.kind = .MissingField name →
        pathExists w (sourceFilePath s) = false →
        create_default_file CT w s = (.ok (), w1) →
        load_config CT w sources (some s) =
          (.error (.CreatedDefaultFile (sourceFilePath s)), w1)) ∧
    (load_config CT w sources none = (.error (.Figment e), w)) ∧
    ((∀ n, e.kind ≠ .MissingField n) →
      ∀ fb, load_config CT w sources fb = (.error (.Figment e), w)) := by
  refine ⟨?_, ?_, ?_⟩
  · intro s w1 hk hnx hboot
    simp [load_config, hext, hk, hnx, hboot]
  · cases hk : e.kind <;> simp [load_config, hext, hk]
  · intro hne fb
    cases hk : e.kind with
    | MissingField n => exact absurd hk (hne n)
    | Io m => cases fb <;> simp [load_config, hext, hk]
    | Parse m => cases fb <;> simp [load_config, hext, hk]
    | InvalidType m => cases fb <;> simp [load_config, hext, hk]

theorem C1_missing_field_recovery_witness :
    load_config toyCT wEmpty [] (some (SourceFile.Toml "./cfg.toml")) =
      (.error (.CreatedDefaultFile "./cfg.toml"),
       { wEmpty with fs := [("./cfg.toml", "setting1 = false")] }) :=
  (C1_missing_field_recovery toyCT wEmpty [] ⟨.MissingField "setting1"⟩ "setting1" rfl).1
    (SourceFile.Toml "./cfg.toml")
    { wEmpty with fs := [("./cfg.toml", "setting1 = false")] } rfl rfl rfl

/-- C2: in a successful merge, for two sources that both define the same
field `f`, the earlier-listed one's value wins, whatever the kinds of the
two sources: if no source before `s1` defines `f`, the merged view binds
`f` to `s1`'s value even though the later `s2` also defines `f`. -/
theorem C2_precedence (CT : ConfigType T) (w : World)
    (pre mid post : List Source) (s1 s2 : Source) (f v1 v2 : String)
    (d d1 d2 : Dict)
    (h : mergeSources CT w (pre ++ s1 :: (mid ++ s2 :: post)) = .ok d)
    (h1 : fragment CT w s1 = .ok d1) (h2 : fragment CT w s2 = .ok d2)
    (hv1 : d1.lookup f = some v1) (hv2 : d2.lookup f = some v2)
    (hpre : ∀ s ∈ pre, ∀ ds, fragment CT w s = .ok ds → ds.lookup f = none) :
    d.lookup f = some v1 := by
  rw [mergeSources_eq_fragmentsAll, fragmentsAll_append] at h
  cases hp : fragmentsAll CT w pre with
  | error e => rw [hp] at h; cases h
  | ok dpre =>
    rw [hp] at h
    simp only [fragmentsAll] at h
    rw [h1] at h
    cases hrest : fragmentsAll CT w (mid ++ s2 :: post) with
    | error e => rw [hrest] at h; cases h
    | ok drest =>
      rw [hrest] at h
      cases h
      rw [lookup_append, lookup_append]
      rw [fragmentsAll_lookup_none CT w f pre dpre hp hpre, hv1]
      rfl

theorem C2_precedence_witness :
    ([("setting1", "true"), ("setting1", "false")] : Dict).lookup "setting1" =
      some "true" :=
  C2_precedence toyCT wBoth [] [] [] Source.Env
    (Source.File (SourceFile.Toml "./c.toml")) "setting1" "true" "false"
    [("setting1", "true"), ("setting1", "false")]
    [("setting1", "true")] [("setting1", "false")]
    rfl rfl rfl rfl rfl (by simp)

/-- C4: when the bootstrapper fails after `load_config` delegated to it on
a `MissingField` extraction failure, `load_config` returns the
bootstrapper's error alone (`Error.CreateDefaultFile`), entirely replacing
the original missing-field failure; no chained cause is exposed. -/
theorem C4_bootstrap_error_replaces (CT : ConfigType T) (w : World)
    (sources : List Source) (e : FigmentError) (name : String) (s : SourceFile)
    (ce : CreateDefaultFileError) (w1 : World)
    (hext : extractFig CT (mergeSources CT w sources) = .error e)
    (hk : e.kind = .MissingField name)
    (hnx : pathExists w (sourceFilePath s) = false)
    (hboot : create_default_file CT w s = (.error ce, w1)) :
    load_config CT w sources (some s) = (.error (.CreateDefaultFile ce), w1) := by
  simp [load_config, hext, hk, hnx, hboot]

theorem C4_bootstrap_error_replaces_witness :
    load_config toyCT wDirFault [] (some (SourceFile.Toml "./cfg.toml")) =
      (.error (.CreateDefaultFile (.StdIo "./cfg.toml" "denied")), wDirFault) :=
  C4_bootstrap_error_replaces toyCT wDirFault [] ⟨.MissingField "setting1"⟩
    "setting1" (SourceFile.Toml "./cfg.toml") (.StdIo "./cfg.toml" "denied")
    wDirFault rfl rfl rfl rfl

/-- C8 (amended): the bootstrapper runs serialisation, parent-directory
creation, exclusive file creation (failing if the file already exists) and
the full write in that order, and each failing step short-circuits the
remaining ones; the filesystem failures are tagged with the target
filepath, while a serialisation failure is returned as the bare codec
error, carrying no filepath. -/
theorem C8_bootstrap_steps (CT : ConfigType T) (w : World) (cfd : SourceFile) :
    (∀ e, serializeDefault CT cfd = .error e →
        create_default_file CT w cfd = (.error e, w)) ∧
    (∀ c m, serializeDefault CT cfd = .ok c →
        w.ioFault (.createDirAll (parentDir (sourceFilePath cfd))) = some m →
        create_default_file CT w cfd = (.error (.StdIo (sourceFilePath cfd) m), w)) ∧
    (∀ c, serializeDefault CT cfd = .ok c →
        w.ioFault (.createDirAll (parentDir (sourceFilePath cfd))) = none →
        pathExists w (sourceFilePath cfd) = true →
        create_default_file CT w cfd =
          (.error (.StdIo (sourceFilePath cfd) "AlreadyExists"), w)) ∧
    (∀ c m, serializeDefault CT cfd = .ok c →
        w.ioFault (.createDirAll (parentDir (sourceFilePath cfd))) = none →
        pathExists w (sourceFilePath cfd) = false →
        w.ioFault (.createNew (sourceFilePath cfd)) = some m →
        create_default_file CT w cfd = (.error (.StdIo (sourceFilePath cfd) m), w)) ∧
    (∀ c m, serializeDefault CT cfd = .ok c →
        w.ioFault (.createDirAll (parentDir (sourceFilePath cfd))) = none →
        pathExists w (sourceFilePath cfd) = false →
        w.ioFault (.createNew (sourceFilePath cfd)) = none →
        w.ioFault (.writeAll (sourceFilePath cfd)) = some m →
        create_default_file CT w cfd = (.error (.StdIo (sourceFilePath cfd) m),
          { w with fs := (sourceFilePath cfd, "") :: w.fs })) ∧
    (∀ c, serializeDefault CT cfd = .ok c →
        w.ioFault (.createDirAll (parentDir (sourceFilePath cfd))) = none →
        pathExists w (sourceFilePath cfd) = false →
        w.ioFault (.createNew (sourceFilePath cfd)) = none →
        w.ioFault (.writeAll (sourceFilePath cfd)) = none →
        create_default_file CT w cfd =
          (.ok (), { w with fs := (sourceFilePath cfd, c) :: w.fs })) ∧
    (∀ e, serializeDefault CT cfd = .error e → cdfeFilepath e = none) ∧
    (∀ p m, cdfeFilepath (.StdIo p m) = some p) := by
  refine ⟨?_, ?_, ?_, ?_, ?_, ?_, ?_, fun p m => rfl⟩
  · intro e hs
    simp [create_default_file, hs]
  · intro c m hs hdir
    simp [create_default_file, hs, hdir]
  · intro c hs hdir hx
    simp [create_default_file, hs, hdir, hx]
  · intro c m hs hdir hx hnew
    simp [create_default_file, hs, hdir, hx, hnew]
  · intro c m hs hdir hx hnew hwr
    simp [create_default_file, hs, hdir, hx, hnew, hwr]
  · intro c hs hdir hx hnew hwr
    simp [create_default_file, hs, hdir, hx, hnew, hwr]
  · intro e hs
    cases cfd with
    | Json p =>
      cases hj : CT.encodeJson CT.default with
      | ok s => simp [serializeDefault, hj, Except.mapError] at hs
      | error a =>
        simp only [serializeDefault, hj, Except.mapError, Except.error.injEq] at hs
        subst hs
        rfl
    | Toml p =>
      cases hj : CT.encodeToml CT.default with
      | ok s => simp [serializeDefault, hj, Except.mapError] at hs
      | error a =>
        simp only [serializeDefault, hj, Except.mapError, Except.error.injEq] at hs
        subst hs
        rfl
    | Yaml p =>
      cases hj : CT.encodeYaml CT.default with
      | ok s => simp [serializeDefault, hj, Except.mapError] at hs
      | error a =>
        simp only [serializeDefault, hj, Except.mapError, Except.error.injEq] at hs
        subst hs
        rfl

theorem C8_bootstrap_steps_witness :
    create_default_file toyCT wDirFault (SourceFile.Toml "./cfg.toml") =
      (.error (.StdIo "./cfg.toml" "denied"), wDirFault) :=
  (C8_bootstrap_steps toyCT wDirFault (SourceFile.Toml "./cfg.toml")).2.1
    "setting1 = false" "denied" rfl rfl

/-- C8 (counterexample): a failing serialisation step is not tagged with
the target filepath: at this concrete input the bootstrapper fails at the
serialisation step and returns the bare `TomlSer` codec error, which
carries no filepath at all (only `StdIo` errors do, src/error.rs:29-30),
refuting "every such failure is tagged with the target filepath". -/
theorem C8_serialization_untagged_counterexample :
    create_default_file toyBadSerCT wEmpty (SourceFile.Toml "./cfg.toml") =
      (.error (.TomlSer "boom"), wEmpty) ∧
    cdfeFilepath (.TomlSer "boom") = none :=
  ⟨rfl, rfl⟩

/-- Successful bootstrap leaves a file at the fallback's path. -/
theorem create_default_file_ok_exists (CT : ConfigType T) (w : World)
    (s : SourceFile) (u : Unit) (w1 : World)
    (h : create_default_file CT w s = (.ok u, w1)) :
    pathExists w1 (sourceFilePath s) = true := by
  unfold create_default_file at h
  split at h
  · cases h
  · dsimp only at h
    split at h
    · cases h
    · split at h
      · cases h
      · split at h
        · cases h
        · split at h
          · cases h
          · cases h
            simp [pathExists, List.lookup]

/-- When a file exists at the fallback's path, a `load_config` call with
that fallback never changes the world. -/
theorem load_config_snd_of_exists (CT : ConfigType T) (w : World) (sources : List Source)
    (s : SourceFile) (hx : pathExists w (sourceFilePath s) = true) :
    (load_config CT w sources (some s)).2 = w := by
  unfold load_config
  split
  · rfl
  · split
    · simp [hx]
    · rfl

/-- Inversion: a `load_config` call that returns `Ok` got that value from
extraction over the merged sources and changed nothing. -/
theorem load_config_ok_inv (CT : ConfigType T) (w : World) (sources : List Source)
    (fb : Option SourceFile) (c : T) (w1 : World)
    (h : load_config CT w sources fb = (.ok c, w1)) :
    extractFig CT (mergeSources CT w sources) = .ok c ∧ w1 = w := by
  unfold load_config at h
  split at h
  · rename_i c0 hex
    simp only [Prod.mk.injEq, Except.ok.injEq] at h
    obtain ⟨h1, h2⟩ := h
    subst h1
    exact ⟨hex, h2.symm⟩
  · split at h
    · split at h
      · split at h
        · split at h <;> simp at h
        · simp at h
      · simp at h
    · simp at h

/-- Inversion: a `load_config` call that reports `CreatedDefaultFile p`
had a fallback configured, `p` is exactly the path inside that fallback,
and the bootstrapper ran successfully producing the final world. -/
theorem load_config_created_inv (CT : ConfigType T) (w : World) (sources : List Source)
    (fb : Option SourceFile) (p : String) (w1 : World)
    (h : load_config CT w sources fb = (.error (.CreatedDefaultFile p), w1)) :
    ∃ s, fb = some s ∧ p = sourceFilePath s ∧
      create_default_file CT w s = (.ok (), w1) := by
  unfold load_config at h
  split at h
  · simp at h
  · split at h
    · split at h
      · rename_i s
        split at h
        · split at h
          · simp at h
          · rename_i u w2 heq
            simp only [Prod.mk.injEq, Except.error.injEq, Error.CreatedDefaultFile.injEq] at h
            obtain ⟨h1, h2⟩ := h
            cases u
            subst h2
            exact ⟨s, rfl, h1.symm, heq⟩
        · simp at h
      · simp at h
    · simp at h

/-- C3: when a (possibly malformed) file already exists at the fallback
path, `load_config` returns the original extraction failure rather than
`CreatedDefaultFile` and performs no write (the world, hence the file's
bytes, is unchanged); and after a call that did create the default file,
the file exists in the resulting world, so a second consecutive load
against the same fallback path never creates or overwrites it. -/
theorem C3_existing_file_untouched (CT : ConfigType T) (w : World)
    (sources : List Source) (s : SourceFile) :
    (pathExists w (sourceFilePath s) = true →
      (load_config CT w sources (some s)).2 = w ∧
      ∀ e name, extractFig CT (mergeSources CT w sources) = .error e →
        e.kind = .MissingField name →
        (load_config CT w sources (some s)).1 = .error (.Figment e)) ∧
    (∀ w1, load_config CT w sources (some s) =
        (.error (.CreatedDefaultFile (sourceFilePath s)), w1) →
      pathExists w1 (sourceFilePath s) = true ∧
      (load_config CT w1 sources (some s)).2 = w1) := by
  constructor
  · intro hx
    refine ⟨load_config_snd_of_exists CT w sources s hx, ?_⟩
    intro e name hext hk
    simp [load_config, hext, hk, hx]
  · intro w1 h
    obtain ⟨s1, hfb, hp, hcr⟩ := load_config_created_inv CT w sources (some s) _ w1 h
    injection hfb with hs
    subst hs
    have hx1 : pathExists w1 (sourceFilePath s) = true :=
      create_default_file_ok_exists CT w s () w1 hcr
    exact ⟨hx1, load_config_snd_of_exists CT w1 sources s hx1⟩

theorem C3_existing_file_untouched_witness :
    ((load_config toyCT wJunk [] (some (SourceFile.Toml "./cfg.toml"))).2 = wJunk) ∧
    (pathExists { wEmpty with fs := [("./cfg.toml", "setting1 = false")] } "./cfg.toml" = true ∧
      (load_config toyCT { wEmpty with fs := [("./cfg.toml", "setting1 = false")] } []
          (some (SourceFile.Toml "./cfg.toml"))).2 =
        { wEmpty with fs := [("./cfg.toml", "setting1 = false")] }) :=
  ⟨((C3_existing_file_untouched toyCT wJunk [] (SourceFile.Toml "./cfg.toml")).1 rfl).1,
   (C3_existing_file_untouched toyCT wEmpty [] (SourceFile.Toml "./cfg.toml")).2
     { wEmpty with fs := [("./cfg.toml", "setting1 = false")] } rfl⟩

/-- C5 (counterexample): invoking `create_default_file` with a fallback
whose path names an already-existing file is not a no-op success: at this
concrete input it returns an `AlreadyExists` filesystem error, not `Ok`
(the existing-file precondition check lives in `load_config`, and the
exclusive `File::create_new` inside the bootstrapper fails on an existing
file). -/
theorem C5_not_noop_success_counterexample :
    create_default_file toyCT wJunk (SourceFile.Toml "./cfg.toml") =
      (.error (.StdIo "./cfg.toml" "AlreadyExists"), wJunk) ∧
    ¬ (create_default_file toyCT wJunk (SourceFile.Toml "./cfg.toml")).1 = .ok () := by
  refine ⟨rfl, fun h => ?_⟩
  rw [show (create_default_file toyCT wJunk (SourceFile.Toml "./cfg.toml")).1 =
        .error (.StdIo "./cfg.toml" "AlreadyExists") from rfl] at h
  cases h

/-- C5 (amended): when a file already exists at the fallback path, the
existence check in `load_config` skips the bootstrapper entirely and the
caller receives the original `MissingField` failure with the world (hence
the file) unchanged; `create_default_file` itself, if invoked with such a
path (serialisation and directory creation succeeding), is not a no-op
success but fails with an `AlreadyExists` filesystem error tagged with the
path, still touching nothing. -/
theorem C5_amended_existing_file (CT : ConfigType T) (w : World)
    (sources : List Source) (s : SourceFile)
    (hx : pathExists w (sourceFilePath s) = true) :
    (∀ e name, extractFig CT (mergeSources CT w sources) = .error e →
        e.kind = .MissingField name →
        load_config CT w sources (some s) = (.error (.Figment e), w)) ∧
    (∀ c, serializeDefault CT s = .ok c →
        w.ioFault (.createDirAll (parentDir (sourceFilePath s))) = none →
        create_default_file CT w s =
          (.error (.StdIo (sourceFilePath s) "AlreadyExists"), w)) := by
  constructor
  · intro e name hext hk
    simp [load_config, hext, hk, hx]
  · intro c hs hdir
    simp [create_default_file, hs, hdir, hx]

theorem C5_amended_existing_file_witness :
    load_config toyCT wJunk [] (some (SourceFile.Toml "./cfg.toml")) =
      (.error (.Figment ⟨.MissingField "setting1"⟩), wJunk) ∧
    create_default_file toyCT wJunk (SourceFile.Toml "./cfg.toml") =
      (.error (.StdIo "./cfg.toml" "AlreadyExists"), wJunk) :=
  ⟨(C5_amended_existing_file toyCT wJunk [] (SourceFile.Toml "./cfg.toml") rfl).1
      ⟨.MissingField "setting1"⟩ "setting1" rfl rfl,
   (C5_amended_existing_file toyCT wJunk [] (SourceFile.Toml "./cfg.toml") rfl).2
      "setting1 = false" rfl rfl⟩

/-- C10: at the public interface the three-way outcome rides on the error
channel of a two-way result: `Ok` arises only from successful extraction
of the merged view, and the default-file-created outcome is the error
variant `CreatedDefaultFile` whose filepath equals the path carried inside
the fallback `SourceFile`, whatever its format tag. -/
theorem C10_outcome_on_error_channel (CT : ConfigType T) (w : World)
    (sources : List Source) (fb : Option SourceFile) :
    (∀ c w1, load_config CT w sources fb = (.ok c, w1) →
        extractFig CT (mergeSources CT w sources) = .ok c ∧ w1 = w) ∧
    (∀ p w1, load_config CT w sources fb = (.error (.CreatedDefaultFile p), w1) →
        ∃ s, fb = some s ∧ p = sourceFilePath s ∧
          create_default_file CT w s = (.ok (), w1)) ∧
    (∀ p, sourceFilePath (SourceFile.Json p) = p ∧
        sourceFilePath (SourceFile.Toml p) = p ∧
        sourceFilePath (SourceFile.Yaml p) = p) :=
  ⟨fun c w1 h => load_config_ok_inv CT w sources fb c w1 h,
   fun p w1 h => load_config_created_inv CT w sources fb p w1 h,
   fun _ => ⟨rfl, rfl, rfl⟩⟩

theorem C10_outcome_on_error_channel_witness :
    extractFig toyCT (mergeSources toyCT wEmpty [Source.ConfigDefault]) = .ok false ∧
      wEmpty = wEmpty :=
  (C10_outcome_on_error_channel toyCT wEmpty [Source.ConfigDefault] none).1
    false wEmpty rfl

end LoadConfig
